import Mathlib

/-!
Verification of the mozalert controller (mozalert/base.py, mozalert/metrics.py,
mozalert/controller.py) against its natural-language specification.

The Python source is shallowly embedded: the per-check scheduling state machine
of `BaseCheck.check`, the telemetry extraction of
`BaseCheck.extract_telemetry_from_logs`, the metrics consumer of
`MetricsThread.run`, and the supervisor loop of `Controller.run` become pure
Lean functions over explicit state, and the spec's claims are proved or refuted
about those functions.
-/

namespace Mozalert

/-- Modelled from the spec: the check status enum lives in `mozalert/status.py`
(not part of the embedded sources); per the spec it is the Nagios-compatible
set `{OK, WARNING, CRITICAL, UNKNOWN}`.  `base.py` only consults `status.OK`
(whether the value is `OK`) and `status.status.name` (the value's name). -/
inductive StatusName
  | OK
  | WARNING
  | CRITICAL
  | UNKNOWN
deriving DecidableEq

/-- The printed name of a status, as used by `f"mozalert_check_{...}_count"`. -/
def StatusName.printed : StatusName → String
  | .OK => "OK"
  | .WARNING => "WARNING"
  | .CRITICAL => "CRITICAL"
  | .UNKNOWN => "UNKNOWN"

/-- Embeds `CheckConfig` (the fields of the config that `BaseCheck.check` and
`BaseCheck.__init__` read: name/namespace identity and the four scheduling
parameters).  Intervals are seconds. -/
structure CheckConfig where
  name : String
  ns : String
  check_interval : Nat
  retry_interval : Nat
  notification_interval : Nat
  max_attempts : Nat
deriving DecidableEq

/-- Which branch of the four-way `if/elif/elif/else` of `BaseCheck.check`
(base.py lines 185-201) ran on an execution. -/
inductive Branch
  | recovery
  | pass
  | escalate
  | retry
deriving DecidableEq

/-- The state written by one execution of `BaseCheck.check`: the `escalated`
flag, `self.status.attempt`, the chosen `self._next_interval`, and the branch
taken. -/
structure StepOut where
  escalated : Bool
  attempt : Nat
  next_interval : Nat
  branch : Branch
deriving DecidableEq

/-- Embeds the scheduling decision of one execution of `BaseCheck.check`
(base.py lines 168 and 185-201): `attempt` is incremented at entry, then
  * `status.OK and escalated` — recovery: clear `escalated`, `attempt = 0`,
    next interval `check_interval`;
  * `status.OK` — `attempt = 0`, next interval `check_interval`;
  * `attempt >= max_attempts` — escalate (sets `escalated`), next interval
    `notification_interval`, `attempt` left as incremented;
  * otherwise — next interval `retry_interval`, `attempt` left as incremented.
`ok` is the embedded `self.status.OK`. -/
def checkStep (cfg : CheckConfig) (escalated : Bool) (attempt : Nat)
    (ok : Bool) : StepOut :=
  let a := attempt + 1
  if ok && escalated then
    ⟨false, 0, cfg.check_interval, .recovery⟩
  else if ok then
    ⟨escalated, 0, cfg.check_interval, .pass⟩
  else if cfg.max_attempts ≤ a then
    ⟨true, a, cfg.notification_interval, .escalate⟩
  else
    ⟨escalated, a, cfg.retry_interval, .retry⟩

/-- Stated from the spec (§8 / §4.1 step 5): the branch selected by an
execution as a pure function of `(status==OK, escalated-before, attempt,
max_attempts)` only.  Compared against `checkStep` for the purity claim. -/
def checkBranch (max_attempts : Nat) (escalated : Bool) (attempt : Nat)
    (ok : Bool) : Branch :=
  let a := attempt + 1
  if ok && escalated then .recovery
  else if ok then .pass
  else if max_attempts ≤ a then .escalate
  else .retry

/-- The interval the spec assigns to each branch. -/
def branchInterval (cfg : CheckConfig) : Branch → Nat
  | .recovery => cfg.check_interval
  | .pass => cfg.check_interval
  | .escalate => cfg.notification_interval
  | .retry => cfg.retry_interval

/-- Runs `checkStep` over a sequence of execution results, returning the
per-execution outputs in order. -/
def runTrace (cfg : CheckConfig) (escalated : Bool) (attempt : Nat) :
    List Bool → List StepOut
  | [] => []
  | ok :: rest =>
    let o := checkStep cfg escalated attempt ok
    o :: runTrace cfg o.escalated o.attempt rest

/-- The `(escalated, attempt)` state after running a sequence of execution
results through `checkStep`. -/
def runState (cfg : CheckConfig) : Bool × Nat → List Bool → Bool × Nat
  | s, [] => s
  | (esc, att), ok :: rest =>
    let o := checkStep cfg esc att ok
    runState cfg (o.escalated, o.attempt) rest

/-- The scenario configuration of the spec's §8: `check_interval=60,
retry_interval=10, notification_interval=300, max_attempts=3`. -/
def scenarioCfg : CheckConfig :=
  { name := "check-1", ns := "default", check_interval := 60
    retry_interval := 10, notification_interval := 300, max_attempts := 3 }

/-- A configuration with `max_attempts = 1`, used to exercise the escalation
branch on the first failing execution. -/
def cfgMax1 : CheckConfig :=
  { name := "check-1", ns := "default", check_interval := 60
    retry_interval := 10, notification_interval := 300, max_attempts := 1 }

/-- Helper: the escalation decision of one execution preserves the invariant
`escalated → max_attempts ≤ attempt`. -/
theorem checkStep_inv (cfg : CheckConfig) (esc : Bool) (att : Nat) (ok : Bool)
    (h : esc = true → cfg.max_attempts ≤ att) :
    (checkStep cfg esc att ok).escalated = true →
      cfg.max_attempts ≤ (checkStep cfg esc att ok).attempt := by
  cases ok <;> cases esc <;>
    by_cases hm : cfg.max_attempts ≤ att + 1 <;>
      simp [checkStep, hm] <;>
        exact absurd (Nat.le_succ_of_le (h rfl)) hm

/-- Helper: the invariant `escalated → max_attempts ≤ attempt` holds of every
state reached by running `checkStep` from a state satisfying it. -/
theorem runState_inv (cfg : CheckConfig) :
    ∀ (results : List Bool) (s : Bool × Nat),
      (s.1 = true → cfg.max_attempts ≤ s.2) →
      ((runState cfg s results).1 = true →
        cfg.max_attempts ≤ (runState cfg s results).2) := by
  intro results
  induction results with
  | nil => intro s h; exact h
  | cons ok rest ih =>
    intro s h
    obtain ⟨esc, att⟩ := s
    exact ih _ (checkStep_inv cfg esc att ok h)

/-- C1: the next-interval and escalation decision of `BaseCheck.check` is a
pure function of `(status==OK, escalated-before, attempt, max_attempts)`,
following the §4.1 step-5 precedence; and on the scenario config
(`check_interval=60, retry_interval=10, notification_interval=300,
max_attempts=3`) the result sequence `[FAIL, FAIL, FAIL, OK]` yields
next intervals `[10, 10, 300, 60]`, escalated values
`[false, false, true, false]`, and the recovery branch exactly once, on the
4th execution. -/
theorem check_decision_pure_and_scenario :
    (∀ (cfg : CheckConfig) (esc : Bool) (att : Nat) (ok : Bool),
      (checkStep cfg esc att ok).branch = checkBranch cfg.max_attempts esc att ok
      ∧ (checkStep cfg esc att ok).next_interval =
          branchInterval cfg (checkStep cfg esc att ok).branch
      ∧ (checkStep cfg esc att ok).escalated =
          (match (checkStep cfg esc att ok).branch with
           | .recovery => false
           | .pass => esc
           | .escalate => true
           | .retry => esc))
    ∧ (runTrace scenarioCfg false 0 [false, false, false, true]).map
        StepOut.next_interval = [10, 10, 300, 60]
    ∧ (runTrace scenarioCfg false 0 [false, false, false, true]).map
        StepOut.escalated = [false, false, true, false]
    ∧ (runTrace scenarioCfg false 0 [false, false, false, true]).map
        StepOut.branch = [.retry, .retry, .escalate, .recovery] := by
  refine ⟨?_, by decide, by decide, by decide⟩
  intro cfg esc att ok
  cases ok <;> cases esc <;>
    by_cases hm : cfg.max_attempts ≤ att + 1 <;>
      simp [checkStep, checkBranch, branchInterval, hm]

/-- C2 counterexample: with `max_attempts = 1`, the first failing execution
triggers escalation but leaves `attempt = 1`; the escalation branch performs
no attempt reset, so the claim's "escalation-triggered reset" does not
exist in the code. -/
theorem attempt_unreset_at_escalation_cex :
    (checkStep cfgMax1 false 0 false).branch = .escalate
    ∧ (checkStep cfgMax1 false 0 false).attempt = 1
    ∧ (checkStep cfgMax1 false 0 false).attempt ≠ 0 := by
  decide

/-- C2 (amended): on every execution, `attempt` becomes `0` when the result
is OK and `attempt + 1` otherwise — so it is monotonically non-decreasing
while the status stays non-OK, and resets to exactly `0` on OK executions
and on no other execution (in particular not on escalation). -/
theorem attempt_reset_exactly_on_ok :
    ∀ (cfg : CheckConfig) (esc : Bool) (att : Nat) (ok : Bool),
      (checkStep cfg esc att ok).attempt = (if ok then 0 else att + 1)
      ∧ ((checkStep cfg esc att ok).attempt = 0 ↔ ok = true) := by
  intro cfg esc att ok
  cases ok <;> cases esc <;>
    by_cases hm : cfg.max_attempts ≤ att + 1 <;>
      simp [checkStep, hm]

/-- C3: from the initial state (`escalated = false`, `attempt = 0`), after any
sequence of execution results, the next execution leaves `escalated` true
exactly when its status is non-OK and its (incremented) `attempt` has reached
`max_attempts`; and a true `escalated` stays true through every further
non-OK execution (it falls only at an OK execution). -/
theorem escalated_iff_nonok_max_attempts :
    ∀ (cfg : CheckConfig) (results : List Bool) (ok : Bool),
      ((checkStep cfg (runState cfg (false, 0) results).1
          (runState cfg (false, 0) results).2 ok).escalated
        = (!ok && decide (cfg.max_attempts ≤
            (checkStep cfg (runState cfg (false, 0) results).1
              (runState cfg (false, 0) results).2 ok).attempt)))
      ∧ ((((runState cfg (false, 0) results).1 && !ok)
            || (checkStep cfg (runState cfg (false, 0) results).1
                 (runState cfg (false, 0) results).2 ok).escalated)
          = (checkStep cfg (runState cfg (false, 0) results).1
              (runState cfg (false, 0) results).2 ok).escalated) := by
  intro cfg results ok
  have hinv := runState_inv cfg results (false, 0) (by simp)
  generalize hg : runState cfg (false, 0) results = s at hinv ⊢
  obtain ⟨esc, att⟩ := s
  simp only at hinv ⊢
  constructor
  · cases ok <;> cases hE : esc <;>
      by_cases hm : cfg.max_attempts ≤ att + 1 <;>
        simp [checkStep, hm] <;>
          exact absurd (Nat.le_succ_of_le (hinv hE)) hm
  · cases ok <;> cases hE : esc <;>
      by_cases hm : cfg.max_attempts ≤ att + 1 <;>
        simp [checkStep, hm]

/-! ### Construction (`BaseCheck.__init__`) -/

/-- Modelled from the spec: the persisted status fields that
`Status.parse_pre_status` (in `mozalert/status.py`, not among the embedded
sources) reads back into the status object on restart — per the spec these
include the attempt count and the next interval; a persisted escalated value
may also be present. -/
structure PreStatus where
  attempt : Nat
  next_interval : Nat
  escalated : Bool
deriving DecidableEq

/-- The externally visible actions `BaseCheck.__init__` takes after setting
its fields: arming the first timer (`start_thread`, with the interval used)
and publishing the status (`set_crd_status`). -/
inductive InitAction
  | startThread (interval : Nat)
  | setCrdStatus
deriving DecidableEq

/-- The check fields relevant to construction, plus the ordered external
actions taken. -/
structure InitCheck where
  escalated : Bool
  next_interval : Nat
  attempt : Nat
  actions : List InitAction
deriving DecidableEq

/-- Embeds `BaseCheck.__init__` (base.py lines 28-61): `escalated` is set to
`False` and `_next_interval` to `check_interval` unconditionally; when a
`pre_status` is supplied, `parse_pre_status` restores the status object
(including its attempt count) and `_next_interval` is taken from the restored
status — but the check-level `escalated` flag is not touched.  Then
`start_thread()` arms the first timer for `next_interval` seconds and
`set_crd_status()` publishes the status. -/
def initCheck (cfg : CheckConfig) (pre_status : Option PreStatus) : InitCheck :=
  let escalated0 := false
  match pre_status with
  | none =>
    { escalated := escalated0, next_interval := cfg.check_interval,
      attempt := 0,
      actions := [.startThread cfg.check_interval, .setCrdStatus] }
  | some ps =>
    { escalated := escalated0, next_interval := ps.next_interval,
      attempt := ps.attempt,
      actions := [.startThread ps.next_interval, .setCrdStatus] }

/-- C4 counterexample: constructing a check from a persisted status whose
escalated flag is true still yields `escalated = false` — the flag is not
resumed, contrary to the claim. -/
theorem init_ignores_persisted_escalated_cex :
    (initCheck scenarioCfg
      (some { attempt := 2, next_interval := 10, escalated := true })).escalated
        = false
    ∧ (initCheck scenarioCfg
        (some { attempt := 2, next_interval := 10, escalated := true })).escalated
      ≠ (PreStatus.escalated { attempt := 2, next_interval := 10, escalated := true }) := by
  decide

/-- C4 (amended): on construction, `attempt` and `next_interval` are resumed
from a supplied persisted status (defaulting to `0` and `check_interval`),
but `escalated` is always initialized to `false`; the first execution is
scheduled after `next_interval` seconds and then the status is published,
in that order. -/
theorem init_resumes_attempt_interval_not_escalated :
    ∀ (cfg : CheckConfig) (ps : Option PreStatus),
      (initCheck cfg ps).escalated = false
      ∧ (initCheck cfg ps).attempt
          = (match ps with | none => 0 | some p => p.attempt)
      ∧ (initCheck cfg ps).next_interval
          = (match ps with | none => cfg.check_interval | some p => p.next_interval)
      ∧ (initCheck cfg ps).actions
          = [.startThread (initCheck cfg ps).next_interval, .setCrdStatus] := by
  intro cfg ps
  cases ps <;> simp [initCheck]

/-! ### Telemetry extraction (`BaseCheck.extract_telemetry_from_logs`)

The Python method splits the log text on newlines and matches each line
against the anchored regex `TELEMETRY:\s*(?P<key>\w+)\s*(?P<val>\d+)[^0-9]?`.
The regex's backtracking semantics are compiled here into a deterministic
function: after the literal prefix and a maximal whitespace run, the greedy
`\w+` takes the maximal word-character run `W`; the value is then either the
maximal digit run after further whitespace (longest key first), or, failing
that, the digit run starting at the last digit position inside `W` (the
backtracked shorter key). -/

/-- Python `\w` restricted to ASCII word characters. -/
def isWordChar (c : Char) : Bool := c.isAlphanum || c = '_'

/-- Python `\s` restricted to ASCII whitespace. -/
def isSpaceChar (c : Char) : Bool :=
  c = ' ' || c = '\t' || c = '\n' || c = '\r' || c = '\x0b' || c = '\x0c'

/-- The literal prefix `TELEMETRY:` of the regex. -/
def telemetryLit : List Char := ['T','E','L','E','M','E','T','R','Y',':']

/-- The last position `j ≥ 1` in `W` holding a digit (the backtracked split
point of the greedy `\w+` against the following `\d+`). -/
def lastDigitIdx (W : List Char) : Option Nat :=
  ((List.range W.length).filter
    (fun j => decide (1 ≤ j) && (W.getD j ' ').isDigit)).getLast?

/-- Key/value split of `W` when the digits must be found inside the word run
itself: the longest key whose following character is a digit. -/
def backtrackMatch (W : List Char) : Option (List Char × List Char) :=
  match lastDigitIdx W with
  | none => none
  | some j => some (W.take j, (W.drop j).takeWhile Char.isDigit)

/-- Embeds `pattern.match(line)` for
`TELEMETRY:\s*(?P<key>\w+)\s*(?P<val>\d+)[^0-9]?` (base.py line 135),
returning the named groups on success. -/
def matchTelemetry (line : List Char) : Option (String × String) :=
  if line.take 10 = telemetryLit then
    let r1 := (line.drop 10).dropWhile isSpaceChar
    let W := r1.takeWhile isWordChar
    if W.isEmpty then none
    else
      let r3 := (r1.drop W.length).dropWhile isSpaceChar
      match r3 with
      | c :: _ =>
        if c.isDigit then
          some (String.mk W, String.mk (r3.takeWhile Char.isDigit))
        else
          match backtrackMatch W with
          | some (k, v) => some (String.mk k, String.mk v)
          | none => none
      | [] =>
        match backtrackMatch W with
        | some (k, v) => some (String.mk k, String.mk v)
        | none => none
  else none

/-- Embeds Python `logs.split("\n")` for the single-character separator. -/
def splitLines : List Char → List (List Char)
  | [] => [[]]
  | c :: rest =>
    if c = '\n' then [] :: splitLines rest
    else
      match splitLines rest with
      | [] => [[c]]
      | l :: ls => (c :: l) :: ls

/-- Embeds Python dict assignment `d[k] = v`: replace the value of an
existing key in place, else append. -/
def dictInsert (d : List (String × String)) (k v : String) :
    List (String × String) :=
  match d with
  | [] => [(k, v)]
  | (k', v') :: rest =>
    if k' = k then (k, v) :: rest else (k', v') :: dictInsert rest k v

/-- Embeds Python dict lookup `d.get(k)`. -/
def dictLookup (k : String) : List (String × String) → Option String
  | [] => none
  | (k', v) :: rest => if k' = k then some v else dictLookup k rest

/-- The loop of `extract_telemetry_from_logs` (base.py lines 132-143):
non-matching lines are appended (with a newline) to the accumulated log text,
matching lines write their key/value into the telemetry dict. -/
def extractGo (acc : List Char) (tel : List (String × String)) :
    List (List Char) → List Char × List (String × String)
  | [] => (acc, tel)
  | line :: rest =>
    match matchTelemetry line with
    | none => extractGo (acc ++ line ++ ['\n']) tel rest
    | some (k, v) => extractGo acc (dictInsert tel k v) rest

/-- Embeds `BaseCheck.extract_telemetry_from_logs` (base.py lines 125-145). -/
def extract_telemetry_from_logs (logs : String) :
    String × List (String × String) :=
  let r := extractGo [] [] (splitLines logs.data)
  (String.mk r.1, r.2)

/-- Stated from the spec: the non-matching lines, in order, each followed by
a newline. -/
def joinLines (ls : List (List Char)) : List Char :=
  ls.foldr (fun l acc => l ++ '\n' :: acc) []

/-- Stated from the spec: the value of the last line matching with key `k`
(later telemetry lines override earlier ones with the same key). -/
def lastTelemetryValue (k : String) : List (List Char) → Option String
  | [] => none
  | line :: rest =>
    match lastTelemetryValue k rest with
    | some v => some v
    | none =>
      match matchTelemetry line with
      | some (k', v) => if k' = k then some v else none
      | none => none

/-- Helper: the log-text half of the extraction loop is the concatenation of
the non-matching lines. -/
theorem extractGo_fst (lines : List (List Char)) :
    ∀ (acc : List Char) (tel : List (String × String)),
      (extractGo acc tel lines).1
        = acc ++ joinLines (lines.filter (fun l => (matchTelemetry l).isNone)) := by
  induction lines with
  | nil => intro acc tel; simp [extractGo, joinLines]
  | cons line rest ih =>
    intro acc tel
    cases h : matchTelemetry line with
    | none => simp [extractGo, h, ih, joinLines]
    | some kv => simp [extractGo, h, ih, joinLines]

/-- Helper: looking a key up after a dict write. -/
theorem dictInsert_lookup (k v : String) :
    ∀ (d : List (String × String)) (k' : String),
      dictLookup k' (dictInsert d k v)
        = if k = k' then some v else dictLookup k' d := by
  intro d
  induction d with
  | nil => intro k'; simp [dictInsert, dictLookup]
  | cons hd rest ih =>
    intro k'
    obtain ⟨a, b⟩ := hd
    by_cases hak : a = k
    · subst hak
      by_cases hk' : a = k'
      · subst hk'; simp [dictInsert, dictLookup]
      · simp [dictInsert, dictLookup, hk']
    · by_cases hk' : a = k'
      · subst hk'
        have hka : ¬ k = a := fun h => hak h.symm
        simp [dictInsert, dictLookup, hak, hka]
      · simp [dictInsert, dictLookup, hak, hk', ih]

/-- Helper: the telemetry half of the extraction loop realizes last-wins
lookup over the matching lines. -/
theorem extractGo_lookup (lines : List (List Char)) :
    ∀ (acc : List Char) (tel : List (String × String)) (k : String),
      dictLookup k (extractGo acc tel lines).2
        = (match lastTelemetryValue k lines with
           | some v => some v
           | none => dictLookup k tel) := by
  induction lines with
  | nil => intro acc tel k; simp [extractGo, lastTelemetryValue]
  | cons line rest ih =>
    intro acc tel k
    cases h : matchTelemetry line with
    | none =>
      simp only [extractGo, h, lastTelemetryValue, ih]
      cases lastTelemetryValue k rest <;> simp
    | some kv =>
      obtain ⟨k₀, v₀⟩ := kv
      simp only [extractGo, h, lastTelemetryValue, ih, dictInsert_lookup]
      cases lastTelemetryValue k rest <;> simp
      by_cases hk : k₀ = k <;> simp [hk]

/-- Helper: a matching line in the list guarantees a last-wins value for its
key. -/
theorem lastTelemetryValue_isSome (k : String) :
    ∀ (lines : List (List Char)) (line : List Char) (v : String),
      line ∈ lines → matchTelemetry line = some (k, v) →
        (lastTelemetryValue k lines).isSome = true := by
  intro lines
  induction lines with
  | nil => intro line v h; simp at h
  | cons hd rest ih =>
    intro line v hmem hmatch
    rcases List.mem_cons.mp hmem with hl | hl
    · subst hl
      cases hr : lastTelemetryValue k rest <;>
        simp [lastTelemetryValue, hr, hmatch]
    · have hrest := ih line v hl hmatch
      cases hr : lastTelemetryValue k rest with
      | some w => simp [lastTelemetryValue, hr]
      | none => rw [hr] at hrest; simp at hrest

/-- C5: `extract_telemetry_from_logs` returns the log text made of exactly
the lines that do not match the `TELEMETRY: <key> <integer>` pattern, in
their original order, and a map holding every matching line's key with the
extracted integer value (as a string, last matching line winning); a
`TELEMETRY` line whose value is non-numeric does not match and is passed
through unchanged. -/
theorem extract_telemetry_filters_and_maps :
    ∀ (logs : String) (k : String),
      (extract_telemetry_from_logs logs).1
        = String.mk (joinLines ((splitLines logs.data).filter
            (fun l => (matchTelemetry l).isNone)))
      ∧ dictLookup k (extract_telemetry_from_logs logs).2
          = lastTelemetryValue k (splitLines logs.data)
      ∧ (∀ line ∈ splitLines logs.data, ∀ v : String,
          matchTelemetry line = some (k, v) →
            (dictLookup k (extract_telemetry_from_logs logs).2).isSome = true)
      ∧ matchTelemetry "TELEMETRY: foo bar".data = none
      ∧ extract_telemetry_from_logs
            "a\nTELEMETRY: total_time 1234\nTELEMETRY: nonnum x\nb"
          = ("a\nTELEMETRY: nonnum x\nb\n", [("total_time", "1234")]) := by
  intro logs k
  have hL : dictLookup k (extract_telemetry_from_logs logs).2
      = lastTelemetryValue k (splitLines logs.data) := by
    show dictLookup k (extractGo [] [] (splitLines logs.data)).2 = _
    rw [extractGo_lookup]
    cases lastTelemetryValue k (splitLines logs.data) <;> simp [dictLookup]
  refine ⟨?_, hL, ?_, by decide, by decide⟩
  · show String.mk (extractGo [] [] (splitLines logs.data)).1 = _
    rw [extractGo_fst]
    rfl
  · intro line hmem v hmatch
    rw [hL]
    exact lastTelemetryValue_isSome k (splitLines logs.data) line v hmem hmatch

/-- C5 witness: concrete application of the extraction theorem. -/
theorem extract_telemetry_filters_and_maps_witness :
    dictLookup "x" (extract_telemetry_from_logs "a\nTELEMETRY: x 5").2
      = lastTelemetryValue "x" (splitLines "a\nTELEMETRY: x 5".data)
    ∧ (dictLookup "x" (extract_telemetry_from_logs "a\nTELEMETRY: x 5").2).isSome
        = true := by
  have h := extract_telemetry_filters_and_maps "a\nTELEMETRY: x 5" "x"
  exact ⟨h.2.1, h.2.2.1 "TELEMETRY: x 5".data (by decide) "5" (by decide)⟩

/-! ### Metrics pipeline (`mozalert/metrics.py`) -/

/-- Whether a registered metric is a prometheus `Gauge` or `Counter`. -/
inductive MetricKind
  | gauge
  | counter
deriving DecidableEq

/-- Embeds the `metrics` dict of `MetricsThread.run` (metrics.py lines
82-119): the fixed set of available metric keys with their types. -/
def availableMetrics : List (String × MetricKind) :=
  [("mozalert_check_runtime", .gauge),
   ("mozalert_check_OK_count", .counter),
   ("mozalert_check_CRITICAL_count", .counter),
   ("mozalert_check_escalations", .gauge),
   ("mozalert_check_total_time", .gauge),
   ("mozalert_check_latency", .gauge)]

/-- The fixed label set `{name, namespace, status, escalated}` of every
registered metric. -/
structure Labels where
  name : String
  ns : String
  status : String
  escalated : Bool
deriving DecidableEq

/-- Embeds `MetricsQueueItem` (metrics.py lines 11-55): a metric key, the
four label values, and an optional numeric value. -/
structure MetricsQueueItem where
  key : String
  name : String
  ns : String
  status : String
  escalated : Bool
  value : Option ℚ
deriving DecidableEq

/-- The `labels` property of `MetricsQueueItem`. -/
def MetricsQueueItem.labels (m : MetricsQueueItem) : Labels :=
  { name := m.name, ns := m.ns, status := m.status, escalated := m.escalated }

/-- Embeds `metric.key in metrics` / `metrics[metric.key]`: lookup of a key
in the available-metrics dict. -/
def lookupMetric (k : String) : List (String × MetricKind) → Option MetricKind
  | [] => none
  | (k', kind) :: rest => if k' = k then some kind else lookupMetric k rest

/-- The observable state of the prometheus registry: the numeric value of
each (metric key, label set) cell. -/
def Registry : Type := String × Labels → ℚ

/-- Embeds the body of the consumer loop of `MetricsThread.run` (metrics.py
lines 133-143): an unrecognized key is discarded; otherwise, if the event
has a value and the metric is a `Gauge`, the labelled cell is set to that
value, else the labelled cell is incremented. -/
def processEvent (reg : Registry) (m : MetricsQueueItem) : Registry :=
  match lookupMetric m.key availableMetrics with
  | none => reg
  | some kind =>
    match m.value, kind with
    | some v, .gauge => fun p => if p = (m.key, m.labels) then v else reg p
    | _, _ => fun p => if p = (m.key, m.labels) then reg p + 1 else reg p

/-- Embeds the per-status counter key `f"mozalert_check_{status.name}_count"`
emitted by `BaseCheck.check` (base.py line 211). -/
def statusCountKey (s : StatusName) : String :=
  "mozalert_check_" ++ s.printed ++ "_count"

/-- The all-zero registry. -/
def zeroRegistry : Registry := fun _ => 0

/-- A per-status counter event as emitted after an execution with status `s`
and the given labels. -/
def statusCountEvent (s : StatusName) (l : Labels) : MetricsQueueItem :=
  { key := statusCountKey s, name := l.name, ns := l.ns, status := l.status,
    escalated := l.escalated, value := none }

/-- Sample labels for concrete metric events. -/
def sampleLabels : Labels :=
  { name := "check-1", ns := "default", status := "OK", escalated := false }

/-- C6 counterexample: the per-status counter keys for `WARNING` and
`UNKNOWN` are not recognized metric keys, and the consumer discards such
events instead of incrementing a counter. -/
theorem warning_unknown_count_unrecognized_cex :
    lookupMetric (statusCountKey .WARNING) availableMetrics = none
    ∧ lookupMetric (statusCountKey .UNKNOWN) availableMetrics = none
    ∧ processEvent zeroRegistry (statusCountEvent .WARNING sampleLabels)
        (statusCountKey .WARNING, sampleLabels) = 0
    ∧ processEvent zeroRegistry (statusCountEvent .UNKNOWN sampleLabels)
        (statusCountKey .UNKNOWN, sampleLabels) = 0 := by
  refine ⟨by decide, by decide, ?_, ?_⟩ <;> decide

/-- C6 (amended): of the four status values, only `OK` and `CRITICAL` have a
recognized per-status counter key; their counter events increment the
labelled counter, while `WARNING` and `UNKNOWN` counter events are
discarded without any registry change. -/
theorem status_count_keys_ok_critical_only :
    lookupMetric (statusCountKey .OK) availableMetrics = some .counter
    ∧ lookupMetric (statusCountKey .CRITICAL) availableMetrics = some .counter
    ∧ lookupMetric (statusCountKey .WARNING) availableMetrics = none
    ∧ lookupMetric (statusCountKey .UNKNOWN) availableMetrics = none
    ∧ (∀ (reg : Registry) (l : Labels),
        processEvent reg (statusCountEvent .OK l) (statusCountKey .OK, l)
          = reg (statusCountKey .OK, l) + 1
        ∧ processEvent reg (statusCountEvent .CRITICAL l)
            (statusCountKey .CRITICAL, l)
          = reg (statusCountKey .CRITICAL, l) + 1
        ∧ processEvent reg (statusCountEvent .WARNING l) = reg
        ∧ processEvent reg (statusCountEvent .UNKNOWN l) = reg) := by
  refine ⟨by decide, by decide, by decide, by decide, ?_⟩
  intro reg l
  have hOK : lookupMetric (statusCountKey .OK) availableMetrics
      = some .counter := by decide
  have hCR : lookupMetric (statusCountKey .CRITICAL) availableMetrics
      = some .counter := by decide
  have hWA : lookupMetric (statusCountKey .WARNING) availableMetrics
      = none := by decide
  have hUN : lookupMetric (statusCountKey .UNKNOWN) availableMetrics
      = none := by decide
  refine ⟨?_, ?_, ?_, ?_⟩ <;>
    simp [processEvent, statusCountEvent, hOK, hCR, hWA, hUN,
      MetricsQueueItem.labels, Labels.mk.injEq]

/-- A value-carrying event aimed at a Counter-typed key. -/
def valueOnCounterEvent : MetricsQueueItem :=
  { key := "mozalert_check_OK_count", name := "check-1", ns := "default",
    status := "OK", escalated := false, value := some 5 }

/-- C7 counterexample: a metric event whose value is set (5) but whose key
names a `Counter` is incremented by 1, not gauge-set to 5 — the consumer
only gauge-sets when the value is present AND the metric is a `Gauge`. -/
theorem value_event_on_counter_increments_cex :
    processEvent zeroRegistry valueOnCounterEvent
      (valueOnCounterEvent.key, valueOnCounterEvent.labels) = 1
    ∧ (1 : ℚ) ≠ 5 := by
  have hk : lookupMetric "mozalert_check_OK_count" availableMetrics
      = some .counter := by decide
  constructor
  · simp [processEvent, hk, valueOnCounterEvent, zeroRegistry]
  · norm_num

/-- C7 (amended): an event with an unrecognized key leaves the registry
unchanged; an event with a value set on a `Gauge`-typed key sets exactly the
`(key, labels)` cell to that value; any other recognized event (value
absent, or the key's metric is a `Counter`) increments exactly the
`(key, labels)` cell by 1 — in particular a value-carrying event on a
`Counter` key increments, and a value-less event on a `Gauge` key increments
that gauge. -/
theorem process_event_semantics :
    ∀ (reg : Registry) (m : MetricsQueueItem),
      (lookupMetric m.key availableMetrics = none →
        processEvent reg m = reg)
      ∧ (∀ v : ℚ, m.value = some v →
          lookupMetric m.key availableMetrics = some .gauge →
            processEvent reg m (m.key, m.labels) = v
            ∧ ∀ p, p ≠ (m.key, m.labels) → processEvent reg m p = reg p)
      ∧ (∀ kind, lookupMetric m.key availableMetrics = some kind →
          (m.value = none ∨ kind = .counter) →
            processEvent reg m (m.key, m.labels)
              = reg (m.key, m.labels) + 1
            ∧ ∀ p, p ≠ (m.key, m.labels) → processEvent reg m p = reg p) := by
  intro reg m
  refine ⟨?_, ?_, ?_⟩
  · intro h
    simp [processEvent, h]
  · intro v hv hk
    constructor
    · simp [processEvent, hv, hk]
    · intro p hp
      simp [processEvent, hv, hk, hp]
  · intro kind hk hcase
    rcases hcase with hv | hkind
    · constructor
      · simp [processEvent, hv, hk]
      · intro p hp
        simp [processEvent, hv, hk, hp]
    · subst hkind
      cases hv : m.value with
      | none =>
        constructor
        · simp [processEvent, hv, hk]
        · intro p hp
          simp [processEvent, hv, hk, hp]
      | some v =>
        constructor
        · simp [processEvent, hv, hk]
        · intro p hp
          simp [processEvent, hv, hk, hp]

/-- C7 witness: a runtime gauge event with value 7 sets the cell to 7, and
an unrecognized key leaves the registry untouched. -/
theorem process_event_semantics_witness :
    processEvent zeroRegistry
      { key := "mozalert_check_runtime", name := "check-1", ns := "default",
        status := "OK", escalated := false, value := some 7 }
      ("mozalert_check_runtime", sampleLabels) = 7
    ∧ processEvent zeroRegistry
        { key := "mozalert_bogus", name := "check-1", ns := "default",
          status := "OK", escalated := false, value := none }
      = zeroRegistry := by
  constructor
  · exact ((process_event_semantics zeroRegistry
      { key := "mozalert_check_runtime", name := "check-1", ns := "default",
        status := "OK", escalated := false, value := some 7 }).2.1
      7 rfl (by decide)).1
  · exact (process_event_semantics zeroRegistry
      { key := "mozalert_bogus", name := "check-1", ns := "default",
        status := "OK", escalated := false, value := none }).1 (by decide)

/-! ### Supervisor (`mozalert/controller.py`) -/

/-- Embeds one entry of `Controller.threads` (the `SimpleNamespace` built by
`Controller.new_thread`): the per-unit shutdown flag, whether the worker is
alive, the recorded constructor and arguments (as opaque identifiers), and a
generation number standing for the identity of the current worker object. -/
structure SupervisorUnit where
  shutdown : Bool
  alive : Bool
  obj : Nat
  kwargs : Nat
  gen : Nat
deriving DecidableEq

/-- Embeds `Controller.new_thread` re-run for an existing name (controller.py
lines 50-64): a fresh namespace with `shutdown = False`, a newly constructed
and started worker (fresh generation) built from the recorded constructor
and arguments. -/
def newThread (u : SupervisorUnit) : SupervisorUnit :=
  { shutdown := false, alive := true, obj := u.obj, kwargs := u.kwargs,
    gen := u.gen + 1 }

/-- Embeds `Controller.restart_thread` (controller.py lines 66-90): if the
worker is still alive it is first asked to shut down and joined, then the
unit is reconstructed via `new_thread` from the recorded arguments. -/
def restartThread (u : SupervisorUnit) : SupervisorUnit :=
  if u.alive then newThread { u with shutdown := true, alive := false }
  else newThread u

/-- Embeds one pass of the liveness loop of `Controller.run` (controller.py
lines 141-146): for each named unit, if the controller-wide shutdown
predicate is false and the unit's worker is not alive, the unit is
restarted; the unit's own shutdown flag is not consulted. -/
def livenessIteration (globalShutdown : Bool)
    (threads : List (String × SupervisorUnit)) :
    List (String × SupervisorUnit) :=
  threads.map (fun nu =>
    if !globalShutdown && !nu.2.alive then (nu.1, restartThread nu.2) else nu)

/-- A dead unit whose own shutdown flag is set. -/
def deadUnitOwnShutdown : SupervisorUnit :=
  { shutdown := true, alive := false, obj := 1, kwargs := 2, gen := 7 }

/-- C8 counterexample: a unit whose worker is dead but whose OWN shutdown
flag is set is nevertheless restarted by the liveness pass (the loop tests
only the controller-wide shutdown predicate), contradicting the claim that
exactly the units with their own flag unset are restarted. -/
theorem liveness_restarts_own_shutdown_unit_cex :
    deadUnitOwnShutdown.shutdown = true
    ∧ livenessIteration false [("event-handler", deadUnitOwnShutdown)]
        = [("event-handler",
            { shutdown := false, alive := true, obj := 1, kwargs := 2,
              gen := 8 })] := by
  decide

/-- C8 (amended): in one liveness pass with the controller-wide shutdown
predicate false, exactly those named units whose worker is no longer running
are restarted — regardless of their own shutdown flag — each reconstructed
under the same name from the originally recorded constructor and arguments
with a brand-new worker (the old worker is never resurrected); units with a
running worker, and all units once global shutdown is requested, are left
untouched. -/
theorem liveness_restarts_exactly_dead_units :
    (∀ (gs : Bool) (threads : List (String × SupervisorUnit)),
      livenessIteration gs threads
        = threads.map (fun nu =>
            if !gs && !nu.2.alive then (nu.1, newThread nu.2) else nu))
    ∧ (∀ u : SupervisorUnit,
        (newThread u).obj = u.obj
        ∧ (newThread u).kwargs = u.kwargs
        ∧ (newThread u).alive = true
        ∧ (newThread u).shutdown = false
        ∧ (newThread u).gen ≠ u.gen) := by
  constructor
  · intro gs threads
    unfold livenessIteration
    apply List.map_congr_left
    intro nu _
    by_cases hd : !gs && !nu.2.alive
    · simp only [hd, if_pos]
      have : restartThread nu.2 = newThread nu.2 := by
        have halive : nu.2.alive = false := by
          rcases Bool.and_eq_true_iff.mp hd with ⟨_, h2⟩
          simpa using h2
        simp [restartThread, halive]
      rw [this]
    · simp [hd]
  · intro u
    refine ⟨rfl, rfl, rfl, rfl, ?_⟩
    simp [newThread]

/-! Global shutdown ordering (`Controller.terminate` and the epilogue of
`Controller.run`). -/

/-- The observable actions of the shutdown path: requesting a unit's
shutdown (setting its flag) and waiting for its worker to stop (join). -/
inductive ShutdownAction
  | request (name : String)
  | wait (name : String)
deriving DecidableEq

/-- Embeds `Controller.terminate` (controller.py lines 45-48): set every
unit's shutdown flag, joining nothing. -/
def terminateTrace (names : List String) : List ShutdownAction :=
  names.map ShutdownAction.request

/-- Embeds the epilogue of `Controller.run` (controller.py lines 148-152):
for each unit in order, set its shutdown flag and join its worker. -/
def runEpilogueTrace (names : List String) : List ShutdownAction :=
  names.flatMap (fun n => [ShutdownAction.request n, ShutdownAction.wait n])

/-- Global shutdown of the supervisor: SIGTERM triggers
`Controller.terminate`, after which the main loop exits and `Controller.run`
runs its epilogue. -/
def globalShutdownTrace (names : List String) : List ShutdownAction :=
  terminateTrace names ++ runEpilogueTrace names

/-- C9: in the global shutdown trace, every unit's shutdown request occurs
before any wait-for-worker begins: `terminate` sets every flag first, and
only the subsequent `run` epilogue joins, so no unit's join delays the
shutdown request of another unit. -/
theorem shutdown_request_all_before_wait_all :
    ∀ (names : List String) (n : String), n ∈ names →
      ∃ i, (globalShutdownTrace names).get? i = some (.request n)
        ∧ ∀ (j : Nat) (m : String),
            (globalShutdownTrace names).get? j = some (.wait m) → i < j := by
  intro names n hmem
  obtain ⟨⟨i, hi⟩, hget⟩ := List.mem_iff_get.mp hmem
  have hit : i < (terminateTrace names).length := by
    simpa [terminateTrace] using hi
  refine ⟨i, ?_, ?_⟩
  · simp only [globalShutdownTrace, List.get?_eq_getElem?]
    rw [List.getElem?_append_left hit]
    simp only [terminateTrace, List.getElem?_map, List.getElem?_eq_getElem hi,
      Option.map_some]
    simpa using congrArg ShutdownAction.request hget
  · intro j m hj
    by_contra hlt
    push_neg at hlt
    have hjn : j < names.length := lt_of_le_of_lt hlt hi
    have hjt : j < (terminateTrace names).length := by
      simpa [terminateTrace] using hjn
    simp only [globalShutdownTrace, List.get?_eq_getElem?] at hj
    rw [List.getElem?_append_left hjt] at hj
    simp only [terminateTrace, List.getElem?_map,
      List.getElem?_eq_getElem hjn] at hj
    simp at hj

/-- C9 witness: concrete application with two units, the second one's
request preceding every wait. -/
theorem shutdown_request_all_before_wait_all_witness :
    ∃ i, (globalShutdownTrace ["healthcheck-thread", "metrics-handler"]).get? i
          = some (.request "metrics-handler")
      ∧ ∀ (j : Nat) (m : String),
          (globalShutdownTrace ["healthcheck-thread", "metrics-handler"]).get? j
            = some (.wait m) → i < j :=
  shutdown_request_all_before_wait_all
    ["healthcheck-thread", "metrics-handler"] "metrics-handler" (by decide)

/-! ### Metric emission within an execution (`BaseCheck.check`) -/

/-- The embedded `self.status.OK`: whether the status value is `OK`. -/
def StatusName.isOK : StatusName → Bool
  | .OK => true
  | _ => false

/-- The result of a full execution of `BaseCheck.check`: the scheduling
decision plus the metric events put on the metrics queue. -/
structure ExecOut where
  out : StepOut
  events : List MetricsQueueItem
deriving DecidableEq

/-- Embeds one execution of `BaseCheck.check` including its metric emission
(base.py lines 163-238): `__labels__` is computed (lines 179-184) from the
`escalated` flag as it stands BEFORE the escalation decision; then the
decision block runs (lines 185-201); then the runtime gauge, the per-status
counter, and the escalations gauge — whose value is `int(self.escalated)`
AFTER the decision — are enqueued, followed by telemetry-derived
`total_time` and `latency` gauges when that telemetry is present. -/
def checkExec (cfg : CheckConfig) (esc : Bool) (att : Nat)
    (result : StatusName) (runtime : ℚ)
    (telemetry_total telemetry_latency : Option ℚ) : ExecOut :=
  let labels : Labels :=
    { name := cfg.name, ns := cfg.ns, status := result.printed,
      escalated := esc }
  let o := checkStep cfg esc att result.isOK
  let ev_runtime : MetricsQueueItem :=
    { key := "mozalert_check_runtime", name := labels.name, ns := labels.ns,
      status := labels.status, escalated := labels.escalated,
      value := some runtime }
  let ev_count : MetricsQueueItem :=
    { key := statusCountKey result, name := labels.name, ns := labels.ns,
      status := labels.status, escalated := labels.escalated, value := none }
  let ev_esc : MetricsQueueItem :=
    { key := "mozalert_check_escalations", name := labels.name,
      ns := labels.ns, status := labels.status, escalated := labels.escalated,
      value := some (if o.escalated then 1 else 0) }
  let ev_total : List MetricsQueueItem :=
    match telemetry_total with
    | some t =>
      [{ key := "mozalert_check_total_time", name := labels.name,
         ns := labels.ns, status := labels.status,
         escalated := labels.escalated, value := some t }]
    | none => []
  let ev_latency : List MetricsQueueItem :=
    match telemetry_latency with
    | some t =>
      [{ key := "mozalert_check_latency", name := labels.name,
         ns := labels.ns, status := labels.status,
         escalated := labels.escalated, value := some t }]
    | none => []
  ⟨o, [ev_runtime, ev_count, ev_esc] ++ ev_total ++ ev_latency⟩

/-- C10: every metric event of an execution carries in its labels the
`escalated` value from BEFORE that execution's escalation decision, while
the escalations-gauge event's value field carries the post-decision value;
in particular on a recovery execution (status OK while escalated) the
escalation gauge event has `escalated = true` in its labels but value 0. -/
theorem escalation_event_labels_pre_decision :
    ∀ (cfg : CheckConfig) (esc : Bool) (att : Nat) (result : StatusName)
      (runtime : ℚ) (tt tl : Option ℚ),
      (∀ e ∈ (checkExec cfg esc att result runtime tt tl).events,
        e.escalated = esc)
      ∧ (checkExec cfg esc att result runtime tt tl).events.get? 2
          = some { key := "mozalert_check_escalations", name := cfg.name,
                   ns := cfg.ns, status := result.printed, escalated := esc,
                   value := some
                     (if (checkExec cfg esc att result runtime
                            tt tl).out.escalated
                      then 1 else 0) }
      ∧ (result = .OK → esc = true →
          (checkExec cfg esc att result runtime tt tl).out.escalated = false
          ∧ (checkExec cfg esc att result runtime tt tl).events.get? 2
              = some { key := "mozalert_check_escalations", name := cfg.name,
                       ns := cfg.ns, status := StatusName.OK.printed,
                       escalated := true, value := some 0 }) := by
  intro cfg esc att result runtime tt tl
  refine ⟨?_, ?_, ?_⟩
  · cases tt <;> cases tl <;>
      simp [checkExec, List.forall_mem_cons]
  · cases tt <;> cases tl <;> rfl
  · intro hres hesc
    subst hres
    subst hesc
    constructor
    · simp [checkExec, checkStep, StatusName.isOK]
    · cases tt <;> cases tl <;>
        simp [checkExec, checkStep, StatusName.isOK]

/-- C10 witness: a concrete recovery execution — escalations gauge labelled
with the pre-decision `escalated = true` but carrying value 0. -/
theorem escalation_event_labels_pre_decision_witness :
    (checkExec scenarioCfg true 3 .OK 2 none none).out.escalated = false
    ∧ (checkExec scenarioCfg true 3 .OK 2 none none).events.get? 2
        = some { key := "mozalert_check_escalations", name := scenarioCfg.name,
                 ns := scenarioCfg.ns, status := StatusName.OK.printed,
                 escalated := true, value := some 0 } :=
  (escalation_event_labels_pre_decision scenarioCfg true 3 .OK 2
    none none).2.2 rfl rfl

end Mozalert
